import Mathlib

/-!
Shallow embedding of the conversation-history logic of `src/main.py`
(a Telegram chat-relay bot forwarding messages to a remote model).

Python strings are modelled as `List Char` so that joining on `"\n"`,
slicing and splitting are ordinary list operations.  The global dict
`user_histories` is modelled as an association list from chat ids to
histories.  A crucial point of fidelity: in

    def build_prompt(chat_id, new_message):
        history = user_histories.get(chat_id, [])
        history.append(f"User: {new_message}")
        prompt = "\n".join(history[-MAX_HISTORY_LENGTH:])
        return prompt

`dict.get` returns the stored list object itself when the key is
present, so `history.append` mutates the stored history in place (and
no truncation of the store happens); when the key is absent, `get`
returns a fresh list and the appended turn is never stored.  The
embedding of `build_prompt` reproduces exactly this branching on
presence of the key.
-/

/-- A Python `str`, modelled as its sequence of characters. -/
abbrev Str := List Char

/-- Inject a Lean string literal into the model. -/
def strL (s : String) : Str := s.toList

/-- A per-conversation history: the ordered list of turn lines. -/
abbrev Hist := List Str

/-- The global `user_histories` dict: chat id to history. -/
abbrev Store := List (Nat × Hist)

/-- `MAX_HISTORY_LENGTH = 10` (src/main.py line 28). -/
def MAX_HISTORY_LENGTH : Nat := 10

/-- Dict lookup on the store (`user_histories[chat_id]` when present). -/
def lookupStore : Store → Nat → Option Hist
  | [], _ => none
  | (k, v) :: rest, id => if k = id then some v else lookupStore rest id

/-- Dict assignment `user_histories[chat_id] = h`. -/
def insertStore : Store → Nat → Hist → Store
  | [], id, h => [(id, h)]
  | (k, v) :: rest, id, h =>
      if k = id then (id, h) :: rest else (k, v) :: insertStore rest id h

/-- `user_histories.get(chat_id, [])`: the stored history or an empty one. -/
def getStore (st : Store) (id : Nat) : Hist := (lookupStore st id).getD []

/-- Python slice `l[-n:]`: the last `n` elements (all of `l` when shorter). -/
def pySliceLast (n : Nat) (l : List α) : List α := l.drop (l.length - n)

/-- Python `"\n".join(ls)`. -/
def pyJoinNL : List Str → Str
  | [] => []
  | [s] => s
  | s :: r :: rest => s ++ '\n' :: pyJoinNL (r :: rest)

/-- Characters stripped by Python `str.strip()` with no argument. -/
def pyIsSpace (c : Char) : Bool :=
  c = ' ' || c = '\t' || c = '\n' || c = '\r' || c = '\x0b' || c = '\x0c'

/-- Python `s.strip()`: drop leading and trailing whitespace. -/
def pyStrip (s : Str) : Str :=
  ((s.dropWhile pyIsSpace).reverse.dropWhile pyIsSpace).reverse

/-- `build_prompt` (src/main.py lines 34-38).  Returns the rendered prompt
together with the store as it is after the call: when the chat id is
present, `history.append` has mutated the stored list (no truncation);
when it is absent, the store is unchanged (the fresh local list is
dropped, so the User turn is never persisted). -/
def build_prompt (st : Store) (chat_id : Nat) (new_message : Str) :
    Str × Store :=
  let history := getStore st chat_id ++ [strL "User: " ++ new_message]
  let prompt := pyJoinNL (pySliceLast MAX_HISTORY_LENGTH history)
  (prompt,
    match lookupStore st chat_id with
    | some _ => insertStore st chat_id history
    | none => st)

/-- `update_history` (src/main.py lines 41-44): append the Bot turn, then
store the last `MAX_HISTORY_LENGTH` turns.  (When the key is present the
intermediate `history.append` also mutates the stored list, but the
assignment on line 44 immediately overwrites the entry with the sliced
copy, so the net effect on the store is as written here.) -/
def update_history (st : Store) (chat_id : Nat) (bot_response : Str) :
    Store :=
  let history := getStore st chat_id ++ [strL "Bot: " ++ bot_response]
  insertStore st chat_id (pySliceLast MAX_HISTORY_LENGTH history)

/-- The `/start` handler (src/main.py lines 92-96), restricted to its
state effect: `user_histories[chat_id] = []`. -/
def start (st : Store) (chat_id : Nat) : Store := insertStore st chat_id []

/-- A decoded JSON object with string values, as far as
`get_ai_response` inspects it. -/
abbrev Dict := List (Str × Str)

/-- Python `k in d` for a dict. -/
def hasKey (d : Dict) (k : Str) : Bool := d.any (fun p => p.1 == k)

/-- Python `d[k]` under a `k in d` guard (default irrelevant). -/
def getKey (d : Dict) (k : Str) : Str :=
  ((d.find? (fun p => p.1 == k)).map Prod.snd).getD []

/-- Shapes of the decoded response `query` can hand to
`get_ai_response`: a JSON object, or a JSON array of objects. -/
inductive ModelOutput where
  | dict (d : Dict)
  | list (elems : List Dict)

/-- `get_ai_response` (src/main.py lines 73-89), with the remote call's
decoded output passed in as `output`.  Returns the reply text and the
store after the call; `none` models the uncaught `IndexError` raised by
`output[0]` on an empty JSON array.  For an array, Python's
`"error" in output` is element membership of the string among dicts and
is always false, so that branch is skipped. -/
def get_ai_response (st : Store) (chat_id : Nat) (output : ModelOutput) :
    Option (Str × Store) :=
  match output with
  | .dict d =>
      if hasKey d (strL "error") then
        some (strL "Ошибка: " ++ getKey d (strL "error"), st)
      else if hasKey d (strL "generated_text") then
        let text := getKey d (strL "generated_text")
        some (pyStrip text, update_history st chat_id (pyStrip text))
      else
        some (strL "Не могу ответить.", st)
  | .list elems =>
      match elems with
      | [] => none
      | e0 :: _ =>
          if hasKey e0 (strL "generated_text") then
            let text := getKey e0 (strL "generated_text")
            some (pyStrip text, update_history st chat_id (pyStrip text))
          else
            some (strL "Не могу ответить.", st)

/-- Split a text on `'\n'`, Python `s.split("\n")`: used to speak about
the lines of a rendered prompt. -/
def splitLines : Str → List Str
  | [] => [[]]
  | c :: cs =>
      match splitLines cs with
      | [] => [[c]]
      | l :: ls => if c = '\n' then [] :: l :: ls else (c :: l) :: ls

/-- The last line of a text. -/
def lastLine (s : Str) : Str := (splitLines s).getLastD []

/-! ### Helper lemmas about the store and slicing -/

theorem lookupStore_insertStore_self (st : Store) (id : Nat) (h : Hist) :
    lookupStore (insertStore st id h) id = some h := by
  induction st with
  | nil => simp [insertStore, lookupStore]
  | cons kv rest ih =>
      obtain ⟨k, v⟩ := kv
      by_cases hk : k = id
      · simp [insertStore, hk, lookupStore]
      · simp [insertStore, hk, lookupStore, ih]

theorem lookupStore_insertStore_ne (st : Store) (id id' : Nat) (h : Hist)
    (hne : id ≠ id') :
    lookupStore (insertStore st id h) id' = lookupStore st id' := by
  induction st with
  | nil => simp [insertStore, lookupStore, hne]
  | cons kv rest ih =>
      obtain ⟨k, v⟩ := kv
      by_cases hk : k = id
      · subst hk
        simp [insertStore, lookupStore, hne]
      · simp [insertStore, hk, lookupStore, ih]

theorem insertStore_insertStore (st : Store) (id : Nat) (h h' : Hist) :
    insertStore (insertStore st id h) id h' = insertStore st id h' := by
  induction st with
  | nil => simp [insertStore]
  | cons kv rest ih =>
      obtain ⟨k, v⟩ := kv
      by_cases hk : k = id
      · simp [insertStore, hk]
      · simp [insertStore, hk, ih]

theorem pySliceLast_length_le (n : Nat) (l : List α) :
    (pySliceLast n l).length ≤ n := by
  simp only [pySliceLast, List.length_drop]
  omega

theorem pySliceLast_concat (n : Nat) (hn : 0 < n) (l : List α) (u : α) :
    pySliceLast n (l ++ [u]) = l.drop (l.length + 1 - n) ++ [u] := by
  have hle : l.length + 1 - n ≤ l.length := by omega
  simp only [pySliceLast, List.length_append, List.length_singleton]
  rw [List.drop_append_of_le_length hle]

theorem pySliceLast_getLastD (n : Nat) (hn : 0 < n) (l : List α) (u d : α) :
    (pySliceLast n (l ++ [u])).getLastD d = u := by
  rw [pySliceLast_concat n hn l u, List.getLastD_concat]

/-! ### Helper lemmas about lines of a rendered text -/

theorem splitLines_ne_nil (s : Str) : splitLines s ≠ [] := by
  cases s with
  | nil => simp [splitLines]
  | cons c cs =>
      simp only [splitLines]
      match splitLines cs with
      | [] => simp
      | l :: ls =>
          by_cases hc : c = '\n' <;> simp [hc]

theorem splitLines_of_no_newline (s : Str) (hs : '\n' ∉ s) :
    splitLines s = [s] := by
  induction s with
  | nil => rfl
  | cons c cs ih =>
      have hc : c ≠ '\n' := fun h => hs (h ▸ List.mem_cons_self c cs)
      have hcs : '\n' ∉ cs := fun h => hs (List.mem_cons_of_mem c h)
      simp [splitLines, ih hcs, hc]

theorem splitLines_append_newline (a b : Str) :
    splitLines (a ++ '\n' :: b) = splitLines a ++ splitLines b := by
  induction a with
  | nil =>
      simp only [List.nil_append, splitLines]
      match hb : splitLines b, splitLines_ne_nil b with
      | l :: ls, _ => simp [splitLines]
  | cons c a' ih =>
      match ha : splitLines a', splitLines_ne_nil a' with
      | l :: ls, _ =>
          have ha2 : splitLines (a' ++ '\n' :: b) = l :: (ls ++ splitLines b) := by
            rw [ih, ha]; rfl
          simp only [List.cons_append, splitLines, ha2, ha]
          by_cases hc : c = '\n' <;> simp [hc, ha2]

theorem getLastD_irrel (ys : List α) (hys : ys ≠ []) (a b : α) :
    ys.getLastD a = ys.getLastD b := by
  cases ys with
  | nil => exact absurd rfl hys
  | cons y ys' => rw [List.getLastD_cons, List.getLastD_cons]

theorem getLastD_append_right (xs ys : List α) (hys : ys ≠ []) (d : α) :
    (xs ++ ys).getLastD d = ys.getLastD d := by
  induction xs generalizing d with
  | nil => rfl
  | cons x xs ih =>
      rw [List.cons_append, List.getLastD_cons, ih x,
        getLastD_irrel ys hys x d]

theorem lastLine_pyJoinNL_concat (ts : List Str) (u : Str)
    (hu : '\n' ∉ u) : lastLine (pyJoinNL (ts ++ [u])) = u := by
  induction ts with
  | nil => simp [pyJoinNL, lastLine, splitLines_of_no_newline u hu]
  | cons t ts ih =>
      have hpy : pyJoinNL (t :: (ts ++ [u]))
          = t ++ '\n' :: pyJoinNL (ts ++ [u]) := by
        cases ts <;> rfl
      rw [List.cons_append, hpy]
      unfold lastLine
      rw [splitLines_append_newline,
        getLastD_append_right _ _ (splitLines_ne_nil _)]
      exact ih

/-- A turn line carries a `"User: "` or `"Bot: "` label (src/main.py
lines 36 and 43 only ever append strings of these two shapes). -/
def turnForm (t : Str) : Prop :=
  t.take 6 = strL "User: " ∨ t.take 5 = strL "Bot: "

instance (t : Str) : Decidable (turnForm t) := by
  unfold turnForm; infer_instance

example : build_prompt [] 0 (strL "hi") =
    (strL "User: hi", []) := by decide

example : (build_prompt [(0, [strL "Bot: a"])] 0 (strL "hi")).2 =
    [(0, [strL "Bot: a", strL "User: hi"])] := by decide

example : update_history [] 0 (strL "ok") = [(0, [strL "Bot: ok"])] := by
  decide

example : splitLines (strL "User: a\nb") = [strL "User: a", strL "b"] := by
  decide

/-! ### Claim theorems -/

/-- Claim C3: the string returned by `build_prompt` equals the last
`MAX_HISTORY_LENGTH` turns of the history after the append, joined with
newlines, in chronological order; the rendered turn list is a suffix of
the chronological turn sequence (so rendering never reorders turns), and
when every stored turn carries a `User:`/`Bot:` label, so does every
rendered turn. -/
theorem C3_prompt_is_rendered_suffix (st : Store) (id : Nat) (m : Str) :
    (build_prompt st id m).1
      = pyJoinNL (pySliceLast MAX_HISTORY_LENGTH
          (getStore st id ++ [strL "User: " ++ m]))
    ∧ pySliceLast MAX_HISTORY_LENGTH (getStore st id ++ [strL "User: " ++ m])
        <:+ (getStore st id ++ [strL "User: " ++ m])
    ∧ ((∀ t ∈ getStore st id, turnForm t) →
        ∀ t ∈ pySliceLast MAX_HISTORY_LENGTH
            (getStore st id ++ [strL "User: " ++ m]), turnForm t) := by
  refine ⟨rfl, List.drop_suffix _ _, fun hwf t ht => ?_⟩
  have ht' : t ∈ getStore st id ++ [strL "User: " ++ m] :=
    (List.drop_suffix _ _).sublist.mem ht
  rcases List.mem_append.mp ht' with h | h
  · exact hwf t h
  · have : t = strL "User: " ++ m := List.mem_singleton.mp h
    subst this
    left
    rfl

/-- Claim C3 witness: instantiation at a concrete store, id and message,
with the well-formedness hypothesis discharged by computation. -/
theorem C3_prompt_is_rendered_suffix_witness :
    (build_prompt [(0, [strL "Bot: a"])] 0 (strL "hi")).1
      = pyJoinNL (pySliceLast MAX_HISTORY_LENGTH
          (getStore [(0, [strL "Bot: a"])] 0 ++ [strL "User: " ++ strL "hi"]))
    ∧ ∀ t ∈ pySliceLast MAX_HISTORY_LENGTH
          (getStore [(0, [strL "Bot: a"])] 0 ++ [strL "User: " ++ strL "hi"]),
        turnForm t :=
  ⟨(C3_prompt_is_rendered_suffix [(0, [strL "Bot: a"])] 0 (strL "hi")).1,
   (C3_prompt_is_rendered_suffix [(0, [strL "Bot: a"])] 0 (strL "hi")).2.2
     (by decide)⟩

/-- Claim C4: `update_history` stores the old history with the Bot turn
appended and truncated to the last `MAX_HISTORY_LENGTH` turns (dropping
oldest first); on an absent key the stored result is the one-turn
history holding only that Bot turn. -/
theorem C4_update_history_truncates (st : Store) (id : Nat) (r : Str) :
    lookupStore (update_history st id r) id
      = some (pySliceLast MAX_HISTORY_LENGTH
          (getStore st id ++ [strL "Bot: " ++ r]))
    ∧ (lookupStore st id = none →
        lookupStore (update_history st id r) id = some [strL "Bot: " ++ r]) := by
  constructor
  · exact lookupStore_insertStore_self st id _
  · intro hn
    have h1 : getStore st id = [] := by simp [getStore, hn]
    rw [update_history, h1]
    simpa [pySliceLast] using lookupStore_insertStore_self st id _

/-- Claim C4 witness: `update_history` on an empty store yields the
one-turn history. -/
theorem C4_update_history_truncates_witness :
    lookupStore (update_history [] 0 (strL "ok")) 0
      = some [strL "Bot: " ++ strL "ok"] :=
  (C4_update_history_truncates [] 0 (strL "ok")).2 rfl

/-- Claim C6: the `/start` handler sets the conversation's history to
the empty sequence (it is a total function of the store, so it cannot
fail), and it is idempotent: resetting twice equals resetting once. -/
theorem C6_reset_empty_idempotent (st : Store) (id : Nat) :
    lookupStore (start st id) id = some []
    ∧ start (start st id) id = start st id :=
  ⟨lookupStore_insertStore_self st id [], insertStore_insertStore st id [] []⟩

/-- Claim C8: `build_prompt` is total: for every store, id and message
(the empty message included) it returns the rendered prompt and the
store state described here, with no precondition — the embedding has no
failing branch, mirroring the source, whose operations (`dict.get`,
`list.append`, f-string, slice, `join`) are all total on strings. -/
theorem C8_build_prompt_total (st : Store) (id : Nat) (m : Str) :
    build_prompt st id m
      = (pyJoinNL (pySliceLast MAX_HISTORY_LENGTH
            (getStore st id ++ [strL "User: " ++ m])),
         match lookupStore st id with
         | some h => insertStore st id (h ++ [strL "User: " ++ m])
         | none => st) := by
  cases hl : lookupStore st id <;>
    simp [build_prompt, getStore, hl]

/-- Claim C9: operations on one conversation never touch another:
`build_prompt`, `update_history` and the `/start` reset on id `c` leave
the stored history of every other id `c'` unchanged. -/
theorem C9_frame_other_conversations (st : Store) (c c' : Nat) (m r : Str)
    (hne : c ≠ c') :
    lookupStore (build_prompt st c m).2 c' = lookupStore st c'
    ∧ lookupStore (update_history st c r) c' = lookupStore st c'
    ∧ lookupStore (start st c) c' = lookupStore st c' := by
  refine ⟨?_, lookupStore_insertStore_ne st c c' _ hne,
    lookupStore_insertStore_ne st c c' _ hne⟩
  cases hl : lookupStore st c
  · simp [build_prompt, hl]
  · simp [build_prompt, hl, lookupStore_insertStore_ne st c c' _ hne]

/-- Claim C9 witness: a concrete two-conversation store where mutating
conversation 0 leaves conversation 1 untouched. -/
theorem C9_frame_other_conversations_witness :
    lookupStore (build_prompt [(1, [strL "User: x"])] 0 (strL "m")).2 1
      = lookupStore [(1, [strL "User: x"])] 1
    ∧ lookupStore (update_history [(1, [strL "User: x"])] 0 (strL "r")) 1
      = lookupStore [(1, [strL "User: x"])] 1
    ∧ lookupStore (start [(1, [strL "User: x"])] 0) 1
      = lookupStore [(1, [strL "User: x"])] 1 :=
  C9_frame_other_conversations [(1, [strL "User: x"])] 0 1
    (strL "m") (strL "r") (by decide)

/-- The last stored turn after `update_history st id r` is the Bot turn
for `r` (the just-appended, newest entry survives the truncation). -/
theorem update_history_getLast (st : Store) (id : Nat) (r : Str) :
    (getStore (update_history st id r) id).getLastD []
      = strL "Bot: " ++ r := by
  rw [getStore, update_history, lookupStore_insertStore_self]
  exact pySliceLast_getLastD MAX_HISTORY_LENGTH (by decide) _ _ _

/-- Claim C5 counterexample: the empty JSON array is a response with no
recognizable `generated_text` key, yet `get_ai_response` does not return
the fixed fallback message: `output[0]` (src/main.py line 80) raises an
uncaught `IndexError`, modelled as `none`, so the call returns no string
at all. -/
theorem C5_empty_array_counterexample :
    get_ai_response [] 0 (ModelOutput.list []) = none
    ∧ get_ai_response [] 0 (ModelOutput.list [])
      ≠ some (strL "Не могу ответить.", []) := by decide

/-- Claim C5 amended: on an `"error"`-keyed object `get_ai_response`
returns the user-visible error message and leaves the store — hence the
conversation's history — exactly as it was; on a response with no
recognizable `generated_text` key that indexes without failing (an
object, or a non-empty array whose first element lacks the key) it
returns the fixed fallback message and likewise leaves the store
unchanged.  (The empty array instead raises an uncaught `IndexError`,
which also records no Bot turn.) -/
theorem C5_error_paths_preserve_history (st : Store) (id : Nat)
    (d e0 : Dict) (es : List Dict) :
    (hasKey d (strL "error") = true →
      get_ai_response st id (ModelOutput.dict d)
        = some (strL "Ошибка: " ++ getKey d (strL "error"), st))
    ∧ (hasKey d (strL "error") = false →
        hasKey d (strL "generated_text") = false →
        get_ai_response st id (ModelOutput.dict d)
          = some (strL "Не могу ответить.", st))
    ∧ (hasKey e0 (strL "generated_text") = false →
        get_ai_response st id (ModelOutput.list (e0 :: es))
          = some (strL "Не могу ответить.", st)) := by
  refine ⟨fun h1 => ?_, fun h1 h2 => ?_, fun h1 => ?_⟩ <;>
    simp [get_ai_response, *]

/-- Claim C5 witness: an error-keyed object, an empty object and an
array holding an empty object, each on a concrete store. -/
theorem C5_error_paths_preserve_history_witness :
    get_ai_response [] 0 (ModelOutput.dict [(strL "error", strL "boom")])
      = some (strL "Ошибка: "
          ++ getKey [(strL "error", strL "boom")] (strL "error"), [])
    ∧ get_ai_response [] 0 (ModelOutput.dict [])
      = some (strL "Не могу ответить.", [])
    ∧ get_ai_response [] 0 (ModelOutput.list [[]])
      = some (strL "Не могу ответить.", []) :=
  ⟨(C5_error_paths_preserve_history [] 0 [(strL "error", strL "boom")] [] []).1
      (by decide),
   (C5_error_paths_preserve_history [] 0 [] [] []).2.1 (by decide) (by decide),
   (C5_error_paths_preserve_history [] 0 [] [] []).2.2 (by decide)⟩

/-- Claim C10: when the decoded output carries a `generated_text` value
(directly on the object, or on the first element of an array),
`get_ai_response` returns that text stripped of leading and trailing
whitespace, and the Bot turn recorded into the stored history carries
exactly the same stripped text. -/
theorem C10_stripped_text_recorded (st : Store) (id : Nat)
    (d e0 : Dict) (es : List Dict) :
    (hasKey d (strL "error") = false →
      hasKey d (strL "generated_text") = true →
      get_ai_response st id (ModelOutput.dict d)
        = some (pyStrip (getKey d (strL "generated_text")),
            update_history st id (pyStrip (getKey d (strL "generated_text"))))
      ∧ (getStore (update_history st id
            (pyStrip (getKey d (strL "generated_text")))) id).getLastD []
          = strL "Bot: " ++ pyStrip (getKey d (strL "generated_text")))
    ∧ (hasKey e0 (strL "generated_text") = true →
        get_ai_response st id (ModelOutput.list (e0 :: es))
          = some (pyStrip (getKey e0 (strL "generated_text")),
              update_history st id
                (pyStrip (getKey e0 (strL "generated_text"))))
        ∧ (getStore (update_history st id
              (pyStrip (getKey e0 (strL "generated_text")))) id).getLastD []
            = strL "Bot: " ++ pyStrip (getKey e0 (strL "generated_text"))) := by
  refine ⟨fun h1 h2 => ⟨?_, update_history_getLast st id _⟩,
    fun h1 => ⟨?_, update_history_getLast st id _⟩⟩ <;>
    simp [get_ai_response, *]

/-- Claim C10 witness: a concrete object carrying `" hi "` as generated
text: the reply and the recorded Bot turn both hold the stripped `"hi"`. -/
theorem C10_stripped_text_recorded_witness :
    (get_ai_response [] 0 (ModelOutput.dict [(strL "generated_text", strL " hi ")])
      = some (pyStrip (getKey [(strL "generated_text", strL " hi ")]
            (strL "generated_text")),
          update_history [] 0
            (pyStrip (getKey [(strL "generated_text", strL " hi ")]
              (strL "generated_text"))))
      ∧ (getStore (update_history [] 0
            (pyStrip (getKey [(strL "generated_text", strL " hi ")]
              (strL "generated_text")))) 0).getLastD []
          = strL "Bot: " ++ pyStrip (getKey [(strL "generated_text", strL " hi ")]
              (strL "generated_text"))) :=
  (C10_stripped_text_recorded [] 0 [(strL "generated_text", strL " hi ")]
      [] []).1 (by decide) (by decide)

/-- Claim C1 counterexample: starting from the empty store, a `/start`
reset followed by eleven `build_prompt` calls on conversation 0 leaves a
stored history of length 11: `build_prompt` appends to the stored list
without truncating it, so the `len(History) ≤ MAX_HISTORY_LENGTH`
invariant fails immediately after a `BuildPrompt` call on a full
history. -/
theorem C1_history_bound_counterexample :
    ¬ (((lookupStore
          ((fun st => (build_prompt st 0 (strL "x")).2)^[11] (start [] 0)) 0).getD
          []).length ≤ MAX_HISTORY_LENGTH) := by decide

/-- Claim C1 amended: the bound holds after every `update_history`
(RecordResponse) call, but a `build_prompt` (BuildPrompt) call on a
present key stores the old history with the User turn appended and no
truncation — so immediately after BuildPrompt the stored length is the
old length plus one, which can exceed `MAX_HISTORY_LENGTH`; only the
rendered prompt is limited to the last `MAX_HISTORY_LENGTH` turns. -/
theorem C1_history_bound_amended (st : Store) (id : Nat) (m r : Str) :
    (getStore (update_history st id r) id).length ≤ MAX_HISTORY_LENGTH
    ∧ (∀ h, lookupStore st id = some h →
        lookupStore (build_prompt st id m).2 id
          = some (h ++ [strL "User: " ++ m]))
    ∧ (pySliceLast MAX_HISTORY_LENGTH
        (getStore st id ++ [strL "User: " ++ m])).length
        ≤ MAX_HISTORY_LENGTH := by
  refine ⟨?_, fun h hl => ?_, pySliceLast_length_le _ _⟩
  · rw [getStore, update_history, lookupStore_insertStore_self]
    exact pySliceLast_length_le _ _
  · simp [build_prompt, hl, lookupStore_insertStore_self, getStore]

/-- Claim C1 amended witness: the bound after a concrete
`update_history`, and a concrete `build_prompt` growing a one-turn
stored history to two turns. -/
theorem C1_history_bound_amended_witness :
    (getStore (update_history [] 0 (strL "r")) 0).length ≤ MAX_HISTORY_LENGTH
    ∧ lookupStore (build_prompt [(0, [strL "Bot: a"])] 0 (strL "m")).2 0
      = some ([strL "Bot: a"] ++ [strL "User: " ++ strL "m"]) :=
  ⟨(C1_history_bound_amended [] 0 (strL "m") (strL "r")).1,
   (C1_history_bound_amended [(0, [strL "Bot: a"])] 0 (strL "m")
      (strL "r")).2.1 [strL "Bot: a"] (by decide)⟩

/-- Claim C2, evaluated at the failing input: on a store with no entry
for conversation 0, `build_prompt` renders the prompt but creates no
entry — the store is unchanged and the User turn is never persisted
(`user_histories.get(chat_id, [])` returns a fresh list on a missing key
and `build_prompt` never assigns it back). -/
theorem C2_absent_entry_not_created :
    (build_prompt [] 0 (strL "hi")).2 = []
    ∧ lookupStore (build_prompt [] 0 (strL "hi")).2 0 = none := by decide

/-- Claim C7 counterexample: for a message containing a newline the last
line of the rendered prompt is not `"User: " ++ m`: with `m = "a\nb"`
the prompt is `"User: a\nb"`, whose last line is `"b"`. -/
theorem C7_last_line_counterexample :
    lastLine (build_prompt [] 0 (strL "a\nb")).1
      ≠ strL "User: " ++ strL "a\nb" := by decide

/-- Claim C7 amended: for every message `m` that contains no newline
character, the text returned by `build_prompt` has `"User: " ++ m` as
its last line (the just-appended turn is the newest entry, so the slice
never drops it). -/
theorem C7_last_line_amended (st : Store) (id : Nat) (m : Str)
    (hm : '\n' ∉ m) :
    lastLine (build_prompt st id m).1 = strL "User: " ++ m := by
  have hu : '\n' ∉ strL "User: " ++ m := by
    intro hmem
    rcases List.mem_append.mp hmem with h | h
    · exact absurd h (by decide)
    · exact hm h
  show lastLine (pyJoinNL (pySliceLast MAX_HISTORY_LENGTH
      (getStore st id ++ [strL "User: " ++ m]))) = _
  rw [pySliceLast_concat MAX_HISTORY_LENGTH (by decide)]
  exact lastLine_pyJoinNL_concat _ _ hu

/-- Claim C7 amended witness: a concrete newline-free message. -/
theorem C7_last_line_amended_witness :
    '\n' ∉ strL "hello"
    ∧ lastLine (build_prompt [] 0 (strL "hello")).1
      = strL "User: " ++ strL "hello" :=
  ⟨by decide, C7_last_line_amended [] 0 (strL "hello") (by decide)⟩
